import Mathlib

/-!
Verification of the bombsimon/http-helpers repository: a shallow embedding of
the middleware package (middleware chaining, request logging, panic recovery,
Prometheus metrics, rate limiting) and the server package (graceful shutdown),
together with theorems settling the specification's claims.

Go effects are embedded explicitly:
* an `http.ResponseWriter` is a value of the inductive `ResponseWriter`;
  the concrete writer supplied by `net/http` is the `base` constructor
  (status header written, accumulated body bytes), and the repository's
  `ResponseWriterWithInfo` wrapper is the `withInfo` constructor;
* a handler is a function from a request and a mutable state (response writer
  plus the emitted log lines) to the updated state, paired with an optional
  panic value: `none` models normal return, `some v` models an escaping
  panic carrying value `v` with the state as written up to the panic;
* logger objects (`logrus.FieldLogger`, `log.Logger`) are external sinks:
  a call to them is recorded as a `LogEntry` appended to the state's log.
-/

namespace HttpHelpers

/-- A log line emitted during request handling: `line` models
`log.Println` (the plain logger used by the ordering test), `requestProcessed`
models the `Logger` middleware's field log carrying the recorded status and
the level (error when a response error was stored), `panicRecovered` models
`PanicRecovery`'s `logger.Errorf("panic recovered: %s", r)`. -/
inductive LogEntry where
  | line (msg : String)
  | requestProcessed (status : Int) (withErr : Bool)
  | panicRecovered (val : String)
deriving DecidableEq, Repr

/-- `http.ResponseWriter` values flowing through the middlewares.
`base` is the server-provided writer: `status` is the header written so far
(`none` until `WriteHeader` runs; `net/http` treats an unset header as 200),
`body` the accumulated response bytes. `withInfo` embeds the repository's
`ResponseWriterWithInfo`: the wrapped writer plus the recorded
`statusCode` and `responseError` fields. -/
inductive ResponseWriter where
  | base (status : Option Int) (body : String)
  | withInfo (inner : ResponseWriter) (statusCode : Int) (responseError : Option String)
deriving DecidableEq, Repr

/-- `NewResponseWriter`: return the writer unchanged when it already is a
`*ResponseWriterWithInfo`, otherwise wrap it with `statusCode = http.StatusOK`. -/
def NewResponseWriter : ResponseWriter → ResponseWriter
  | ResponseWriter.withInfo i c e => ResponseWriter.withInfo i c e
  | ResponseWriter.base s b => ResponseWriter.withInfo (ResponseWriter.base s b) 200 none

/-- `WriteHeader`: on the wrapper, store the status and forward to the wrapped
writer (the source's `r.statusCode = code; r.ResponseWriter.WriteHeader(code)`);
on the base writer, `net/http` keeps the first header written and ignores
later calls. -/
def WriteHeader : ResponseWriter → Int → ResponseWriter
  | ResponseWriter.withInfo i _ e, code => ResponseWriter.withInfo (WriteHeader i code) code e
  | ResponseWriter.base none b, code => ResponseWriter.base (some code) b
  | ResponseWriter.base (some s) b, _ => ResponseWriter.base (some s) b

/-- `Write` on a writer: the wrapper does not override `Write`, so bytes go
straight through to the wrapped writer; on the base writer `net/http`
implicitly writes a 200 header if none was written yet and appends the bytes. -/
def writeBody : ResponseWriter → String → ResponseWriter
  | ResponseWriter.withInfo i c e, s => ResponseWriter.withInfo (writeBody i s) c e
  | ResponseWriter.base st b, s => ResponseWriter.base (some (st.getD 200)) (b ++ s)

/-- `WriteError`: store the error on the wrapper; a base writer has no such
method, so the action is a no-op there. -/
def WriteError : ResponseWriter → String → ResponseWriter
  | ResponseWriter.withInfo i c _, err => ResponseWriter.withInfo i c (some err)
  | ResponseWriter.base st b, _ => ResponseWriter.base st b

/-- The status an observer reads off a writer: the wrapper's recorded
`statusCode` field, or for a base writer the header written
(200 when the handler never wrote one, as `net/http` does). -/
def statusCode : ResponseWriter → Int
  | ResponseWriter.withInfo _ c _ => c
  | ResponseWriter.base s _ => s.getD 200

/-- The wrapper's recorded `responseError` field (`none` on a base writer). -/
def responseError : ResponseWriter → Option String
  | ResponseWriter.withInfo _ _ e => e
  | ResponseWriter.base _ _ => none

/-- The response bytes that reached the underlying base writer. -/
def bodyOf : ResponseWriter → String
  | ResponseWriter.withInfo i _ _ => bodyOf i
  | ResponseWriter.base _ b => b

/-- The per-request mutable state a handler works on: the response writer it
was handed and the log lines emitted so far. -/
structure HState where
  rw : ResponseWriter
  log : List LogEntry
deriving DecidableEq, Repr

/-- The request data the middlewares read. -/
structure Request where
  method : String
  path : String
deriving DecidableEq, Repr

/-- `http.Handler`: from a request and the per-request state to the updated
state plus `some v` when the handler panics with value `v` (the state then is
the state as written at the point of the panic). -/
def Handler : Type := Request → HState → HState × Option String

/-- `Middleware`: a function which adds a handler before the final serve
handler, exactly the source's `type Middleware func(http.Handler) http.Handler`. -/
def Middleware : Type := Handler → Handler

/-- `AddMiddlewares`: the source loops `for _, middleware := range middlewares
{ h = middleware(h) }` and returns `h`, i.e. a left fold of application. -/
def AddMiddlewares (h : Handler) (middlewares : List Middleware) : Handler :=
  middlewares.foldl (fun h m => m h) h

/-- The spec's composition rule, written as the spec words it:
`composedHandler = stage_n(stage_{n-1}(...stage_1(terminalHandler)))`, the
last stage applied outermost. -/
def composeSpec (h : Handler) (stages : List Middleware) : Handler :=
  stages.reverse.foldr (fun s k => s k) h

/-- The middleware built by `createMiddleware` in `Test_Order`: log the given
string, delegate to the next handler, and log the string again after the
delegate returns; a panic escaping the delegate skips the second log
(no `defer` is involved) and propagates. -/
def createMiddleware (logString : String) : Middleware :=
  fun h => fun r st =>
    let stBefore : HState := { st with log := st.log ++ [LogEntry.line logString] }
    match h r stBefore with
    | (st2, some v) => (st2, some v)
    | (st2, none) => ({ st2 with log := st2.log ++ [LogEntry.line logString] }, none)

/-- The terminal handler of `Test_Order`: it logs `"the handler"`. -/
def theHandler : Handler :=
  fun _ st => ({ st with log := st.log ++ [LogEntry.line "the handler"] }, none)

lemma AddMiddlewares_cons (h : Handler) (m : Middleware) (ms : List Middleware) :
    AddMiddlewares h (m :: ms) = AddMiddlewares (m h) ms := rfl

lemma composeSpec_cons (h : Handler) (m : Middleware) (ms : List Middleware) :
    composeSpec h (m :: ms) = composeSpec (m h) ms := by
  unfold composeSpec
  rw [List.reverse_cons, List.foldr_append, List.foldr_cons, List.foldr_nil]

lemma AddMiddlewares_eq_composeSpec (h : Handler) (ms : List Middleware) :
    AddMiddlewares h ms = composeSpec h ms := by
  induction ms generalizing h with
  | nil => rfl
  | cons m ms ih => rw [AddMiddlewares_cons, composeSpec_cons, ih]

/-- C1: the handler composed by `AddMiddlewares` is
`stage_n(...(stage_1(terminalHandler)))`, and for three logging stages
registered as `[a, b, c]` around the test's terminal handler, one request
produces the log `c, b, a, the handler, a, b, c`: "before" logic in reverse
registration order, the terminal handler exactly once, "after" logic in
registration order. -/
theorem C1_addMiddlewares_order :
    (∀ (h : Handler) (ms : List Middleware), AddMiddlewares h ms = composeSpec h ms) ∧
    (∀ (a b c : String) (r : Request) (w : ResponseWriter) (l0 : List LogEntry),
      AddMiddlewares theHandler
          [createMiddleware a, createMiddleware b, createMiddleware c] r ⟨w, l0⟩ =
        (⟨w, l0 ++ [LogEntry.line c, LogEntry.line b, LogEntry.line a,
            LogEntry.line "the handler",
            LogEntry.line a, LogEntry.line b, LogEntry.line c]⟩, none)) := by
  constructor
  · exact AddMiddlewares_eq_composeSpec
  · intro a b c r w l0
    simp [AddMiddlewares, createMiddleware, theHandler]

/-- The `Logger` middleware: wrap the writer via `NewResponseWriter`, delegate,
then log `"request processed"` with the recorded status among the fields, at
error level when a `responseError` was stored. There is no `defer`, so a panic
escaping the delegate skips the logging and propagates. -/
def Logger : Middleware :=
  fun h => fun r st =>
    match h r { st with rw := NewResponseWriter st.rw } with
    | (st2, some v) => (st2, some v)
    | (st2, none) =>
      ({ st2 with
          log := st2.log ++
            [LogEntry.requestProcessed (statusCode st2.rw) (responseError st2.rw).isSome] },
        none)

/-- The `PanicRecovery` middleware: delegate inside a deferred `recover`; a
panic value `v` is turned into the log line `panic recovered: v` and the
handler returns normally with the state as written at the panic point. -/
def PanicRecovery : Middleware :=
  fun h => fun r st =>
    match h r st with
    | (st2, some v) =>
      ({ st2 with log := st2.log ++ [LogEntry.panicRecovered v] }, none)
    | (st2, none) => (st2, none)

/-- The calls a handler body can make on its response writer. -/
inductive WriteAction where
  | writeHeader (code : Int)
  | write (s : String)
  | writeError (err : String)
deriving DecidableEq, Repr

/-- Apply one writer call. -/
def applyAction (w : ResponseWriter) : WriteAction → ResponseWriter
  | WriteAction.writeHeader c => WriteHeader w c
  | WriteAction.write s => writeBody w s
  | WriteAction.writeError e => WriteError w e

/-- A handler that performs the given writer calls in order and returns
normally; used to quantify over what a handler body does to its writer. -/
def actionsHandler (as : List WriteAction) : Handler :=
  fun _ st => ({ st with rw := as.foldl applyAction st.rw }, none)

/-- C9: `NewResponseWriter` is the identity on writers that already are a
`*ResponseWriterWithInfo` (no re-wrapping, recorded status and error kept),
hence it is idempotent, so nested observability stages share one record. -/
theorem C9_newResponseWriter_idempotent :
    (∀ (i : ResponseWriter) (c : Int) (e : Option String),
      NewResponseWriter (ResponseWriter.withInfo i c e) = ResponseWriter.withInfo i c e) ∧
    (∀ w : ResponseWriter, NewResponseWriter (NewResponseWriter w) = NewResponseWriter w) := by
  constructor
  · intro i c e
    rfl
  · intro w
    cases w <;> rfl

/-- C6: the handler built by `PanicRecovery` never lets a panic escape: it
always returns normally, and when the inner handler panics with value `v` the
result is exactly the inner handler's state as written at the panic point,
with the fault logged as `panic recovered: v`, and no re-raised panic. -/
theorem C6_panicRecovery_catches :
    (∀ (h : Handler) (r : Request) (st : HState), (PanicRecovery h r st).2 = none) ∧
    (∀ (h : Handler) (r : Request) (st st' : HState) (v : String),
      h r st = (st', some v) →
      PanicRecovery h r st =
        ({ st' with log := st'.log ++ [LogEntry.panicRecovered v] }, none)) := by
  constructor
  · intro h r st
    unfold PanicRecovery
    rcases h r st with ⟨st2, p⟩
    cases p <;> rfl
  · intro h r st st' v hv
    unfold PanicRecovery
    rw [hv]

theorem C6_panicRecovery_catches_witness :
    PanicRecovery (fun _ st => (st, some "boom")) ⟨"GET", "/"⟩
        ⟨ResponseWriter.base none "", []⟩ =
      (⟨ResponseWriter.base none "", [LogEntry.panicRecovered "boom"]⟩, none) :=
  C6_panicRecovery_catches.2 (fun _ st => (st, some "boom")) ⟨"GET", "/"⟩
    ⟨ResponseWriter.base none "", []⟩ ⟨ResponseWriter.base none "", []⟩ "boom" rfl

lemma statusCode_applyAction_no_writeHeader (w : ResponseWriter) (a : WriteAction)
    (ha : ∀ c, a ≠ WriteAction.writeHeader c) :
    statusCode (applyAction w a) = statusCode w := by
  cases a with
  | writeHeader c => exact absurd rfl (ha c)
  | write s =>
    cases w with
    | base st b => cases st <;> simp [applyAction, writeBody, statusCode]
    | withInfo i c e => simp [applyAction, writeBody, statusCode]
  | writeError e => cases w <;> simp [applyAction, WriteError, statusCode]

lemma statusCode_foldl_no_writeHeader (as : List WriteAction) (w : ResponseWriter)
    (has : ∀ c, WriteAction.writeHeader c ∉ as) :
    statusCode (as.foldl applyAction w) = statusCode w := by
  induction as generalizing w with
  | nil => rfl
  | cons a as ih =>
    rw [List.foldl_cons, ih _ (fun c hc => has c (List.mem_cons_of_mem _ hc))]
    exact statusCode_applyAction_no_writeHeader w a
      (fun c hc => has c (hc ▸ List.mem_cons_self _ _))

/-- Whether a writer is (a pointer to) the `ResponseWriterWithInfo` wrapper. -/
def isWithInfo : ResponseWriter → Bool
  | ResponseWriter.withInfo _ _ _ => true
  | ResponseWriter.base _ _ => false

lemma isWithInfo_applyAction (w : ResponseWriter) (a : WriteAction) :
    isWithInfo (applyAction w a) = isWithInfo w := by
  cases a with
  | writeHeader c =>
    cases w with
    | base st b => cases st <;> rfl
    | withInfo i c0 e => rfl
  | write s => cases w <;> rfl
  | writeError e => cases w <;> rfl

lemma isWithInfo_foldl (as : List WriteAction) (w : ResponseWriter) :
    isWithInfo (as.foldl applyAction w) = isWithInfo w := by
  induction as generalizing w with
  | nil => rfl
  | cons a as ih => rw [List.foldl_cons, ih, isWithInfo_applyAction]

lemma statusCode_writeHeader_withInfo (w : ResponseWriter) (hw : isWithInfo w = true)
    (c : Int) : statusCode (WriteHeader w c) = c := by
  cases w with
  | base s b => simp [isWithInfo] at hw
  | withInfo i c0 e => rfl

/-- C10: through the `Logger` stage, whose wrapper records the written status,
a handler that never calls `WriteHeader` is reported with status 200, and a
handler whose last `WriteHeader` call passed `c` is reported with status `c`;
in both cases the reported status is the wrapper's recorded one. -/
theorem C10_logger_reports_recorded_status :
    ∀ (r : Request) (s0 : Option Int) (b0 : String) (l0 : List LogEntry),
    (∀ as : List WriteAction, (∀ c, WriteAction.writeHeader c ∉ as) →
      statusCode ((Logger (actionsHandler as) r
          ⟨ResponseWriter.base s0 b0, l0⟩).1.rw) = 200 ∧
      ∃ werr, (Logger (actionsHandler as) r ⟨ResponseWriter.base s0 b0, l0⟩).1.log =
        l0 ++ [LogEntry.requestProcessed 200 werr]) ∧
    (∀ (as1 : List WriteAction) (c : Int) (as2 : List WriteAction),
      (∀ c', WriteAction.writeHeader c' ∉ as2) →
      statusCode ((Logger (actionsHandler (as1 ++ WriteAction.writeHeader c :: as2)) r
          ⟨ResponseWriter.base s0 b0, l0⟩).1.rw) = c ∧
      ∃ werr, (Logger (actionsHandler (as1 ++ WriteAction.writeHeader c :: as2)) r
          ⟨ResponseWriter.base s0 b0, l0⟩).1.log =
        l0 ++ [LogEntry.requestProcessed c werr]) := by
  intro r s0 b0 l0
  constructor
  · intro as has
    have hstat : statusCode (as.foldl applyAction
        (NewResponseWriter (ResponseWriter.base s0 b0))) = 200 := by
      rw [statusCode_foldl_no_writeHeader as _ has]
      rfl
    constructor
    · simpa [Logger, actionsHandler] using hstat
    · refine ⟨(responseError (as.foldl applyAction
        (NewResponseWriter (ResponseWriter.base s0 b0)))).isSome, ?_⟩
      simp [Logger, actionsHandler, hstat]
  · intro as1 c as2 has2
    have hstat : statusCode (as2.foldl applyAction
        (applyAction (as1.foldl applyAction
          (NewResponseWriter (ResponseWriter.base s0 b0))) (WriteAction.writeHeader c))) = c := by
      rw [statusCode_foldl_no_writeHeader as2 _ has2]
      simp only [applyAction]
      refine statusCode_writeHeader_withInfo _ ?_ c
      rw [isWithInfo_foldl]
      rfl
    constructor
    · simpa [Logger, actionsHandler] using hstat
    · refine ⟨(responseError (as2.foldl applyAction
        (applyAction (as1.foldl applyAction
          (NewResponseWriter (ResponseWriter.base s0 b0)))
          (WriteAction.writeHeader c)))).isSome, ?_⟩
      simp [Logger, actionsHandler, hstat]

theorem C10_logger_reports_recorded_status_witness :
    (statusCode ((Logger (actionsHandler [WriteAction.write "hi"]) ⟨"GET", "/"⟩
        ⟨ResponseWriter.base none "", []⟩).1.rw) = 200 ∧
      ∃ werr, (Logger (actionsHandler [WriteAction.write "hi"]) ⟨"GET", "/"⟩
          ⟨ResponseWriter.base none "", []⟩).1.log =
        [] ++ [LogEntry.requestProcessed 200 werr]) ∧
    (statusCode ((Logger (actionsHandler ([] ++ WriteAction.writeHeader 404 :: []))
        ⟨"GET", "/"⟩ ⟨ResponseWriter.base none "", []⟩).1.rw) = 404 ∧
      ∃ werr, (Logger (actionsHandler ([] ++ WriteAction.writeHeader 404 :: []))
          ⟨"GET", "/"⟩ ⟨ResponseWriter.base none "", []⟩).1.log =
        [] ++ [LogEntry.requestProcessed 404 werr]) :=
  ⟨(C10_logger_reports_recorded_status ⟨"GET", "/"⟩ none "" []).1
      [WriteAction.write "hi"] (by intro c; simp),
    (C10_logger_reports_recorded_status ⟨"GET", "/"⟩ none "" []).2
      [] 404 [] (by intro c'; simp)⟩

/-- The termination signals `GracefulShutdown` subscribes to. -/
inductive Signal where
  | sigint
  | sigterm
deriving DecidableEq, Repr

/-- One observable step of the background goroutine spawned by
`GracefulShutdown`: receiving a signal from the subscribed channel, the two
optional logger calls, the call to and return from `server.Shutdown`, and the
`close(idleConnsClosed)` on the returned completion channel. -/
inductive ShutdownEvent where
  | signalReceived (s : Signal)
  | logInfo (msg : String)
  | shutdownCall
  | shutdownReturned (err : Option String)
  | logError (msg : String)
  | closeCompletion
deriving DecidableEq, Repr

/-- The event trace of the background goroutine of `GracefulShutdown`.
`signals` is the stream of termination signals delivered to the buffered
channel registered with `signal.Notify`; the goroutine performs a single
receive, so only the head is ever consumed and an empty stream blocks forever
(empty trace). `logger` is the possibly-nil `ShutdownLogger`; a logger call is
emitted only after the source's `logger != nil` check. `shutdownErr` is the
value returned by `server.Shutdown(ctx)` with the `waitTime` deadline
(`some e` models a drain error such as the deadline elapsing); on an error the
goroutine logs it (when a logger is present) and in every case it then closes
the completion channel and returns. -/
def drainStartLog : Option Unit → List ShutdownEvent
  | some _ => [ShutdownEvent.logInfo "shutting down server, draining connections"]
  | none => []

def shutdownErrorLog : Option Unit → Option String → List ShutdownEvent
  | some _, some e => [ShutdownEvent.logError ("could not shut down server gracefully: " ++ e)]
  | some _, none => []
  | none, _ => []

def gracefulShutdownTrace (signals : List Signal) (logger : Option Unit)
    (shutdownErr : Option String) : List ShutdownEvent :=
  match signals with
  | [] => []
  | s :: _ =>
    [ShutdownEvent.signalReceived s]
    ++ drainStartLog logger
    ++ [ShutdownEvent.shutdownCall, ShutdownEvent.shutdownReturned shutdownErr]
    ++ shutdownErrorLog logger shutdownErr
    ++ [ShutdownEvent.closeCompletion]

/-- Whether an event is the `server.Shutdown` call. -/
def isShutdownCall : ShutdownEvent → Bool
  | ShutdownEvent.shutdownCall => true
  | _ => false

/-- Whether an event is the close of the completion channel. -/
def isCloseCompletion : ShutdownEvent → Bool
  | ShutdownEvent.closeCompletion => true
  | _ => false

/-- Whether an event is a call on the logger. -/
def isLogEvent : ShutdownEvent → Bool
  | ShutdownEvent.logInfo _ => true
  | ShutdownEvent.logError _ => true
  | _ => false

/-- C2: however many termination signals arrive (a first signal `s` followed
by any further `rest`), the coordinator calls `Shutdown` exactly once and
closes the completion channel exactly once, and the whole trace coincides with
the trace for the first signal alone: only the first signal drives the
shutdown sequence. -/
theorem C2_shutdown_idempotent :
    ∀ (s : Signal) (rest : List Signal) (logger : Option Unit) (err : Option String),
      (gracefulShutdownTrace (s :: rest) logger err).countP isShutdownCall = 1 ∧
      (gracefulShutdownTrace (s :: rest) logger err).countP isCloseCompletion = 1 ∧
      gracefulShutdownTrace (s :: rest) logger err = gracefulShutdownTrace [s] logger err := by
  intro s rest logger err
  refine ⟨?_, ?_, rfl⟩ <;>
    cases logger <;> cases err <;>
      simp [gracefulShutdownTrace, drainStartLog, shutdownErrorLog, List.countP_cons, isShutdownCall, isCloseCompletion]

/-- C4: after a termination signal, the completion channel is closed exactly
once, as the final event of the trace, and strictly after `Shutdown` has
returned — whatever `Shutdown` returned; and a `Shutdown` error is logged when
a logger is present while the completion channel still gets closed: the error
is never escalated. -/
theorem C4_completion_after_shutdown :
    ∀ (s : Signal) (rest : List Signal) (logger : Option Unit) (err : Option String),
      (gracefulShutdownTrace (s :: rest) logger err).countP isCloseCompletion = 1 ∧
      (gracefulShutdownTrace (s :: rest) logger err).getLast? =
        some ShutdownEvent.closeCompletion ∧
      ShutdownEvent.shutdownReturned err ∈
        (gracefulShutdownTrace (s :: rest) logger err).dropLast ∧
      (∀ e : String,
        ShutdownEvent.logError ("could not shut down server gracefully: " ++ e) ∈
          gracefulShutdownTrace (s :: rest) (some Unit.unit) (some e) ∧
        ShutdownEvent.closeCompletion ∈
          gracefulShutdownTrace (s :: rest) logger (some e)) := by
  intro s rest logger err
  refine ⟨?_, ?_, ?_, ?_⟩
  · cases logger <;> cases err <;>
      simp [gracefulShutdownTrace, drainStartLog, shutdownErrorLog, List.countP_cons, isCloseCompletion]
  · cases logger <;> cases err <;> simp [gracefulShutdownTrace, drainStartLog, shutdownErrorLog]
  · cases logger <;> cases err <;> simp [gracefulShutdownTrace, drainStartLog, shutdownErrorLog]
  · intro e
    constructor
    · cases logger <;> simp [gracefulShutdownTrace, drainStartLog, shutdownErrorLog]
    · cases logger <;> simp [gracefulShutdownTrace, drainStartLog, shutdownErrorLog]

/-- C7: with a nil logger the shutdown sequence is the same sequence with every
logger call removed — in particular no logger operation is attempted at the
drain-start or error-logging point — for every signal stream and every outcome
of `Shutdown`. -/
theorem C7_nil_logger_safe :
    ∀ (signals : List Signal) (err : Option String),
      gracefulShutdownTrace signals none err =
        (gracefulShutdownTrace signals (some Unit.unit) err).filter
          (fun e => !isLogEvent e) ∧
      (gracefulShutdownTrace signals none err).all (fun e => !isLogEvent e) = true := by
  intro signals err
  cases signals with
  | nil => exact ⟨rfl, rfl⟩
  | cons s rest =>
    cases err <;>
      simp [gracefulShutdownTrace, drainStartLog, shutdownErrorLog, isLogEvent, List.filter, List.all]

/-- `http.StatusText` of `net/http`, restricted to the one code the package
passes it. -/
def StatusText (code : Int) : String :=
  if code = 429 then "Too Many Requests" else ""

/-- `http.Error(w, error, code)` from `net/http`: write the header with the
given code, then the error text followed by a newline to the body. -/
def httpError (w : ResponseWriter) (error : String) (code : Int) : ResponseWriter :=
  writeBody (WriteHeader w code) (error ++ "\n")

/-- Modelled from the spec: the token bucket of the external limiter that
`RateLimiter` builds with `rate.NewLimiter(rate.Every(interval), limit)` and
`limiter.SetBurst(burst)` (package `golang.org/x/time/rate`, outside this
repository; the spec excludes its accounting beyond the token-bucket decision).
`rate` is tokens per time unit, `tokens` the current count, invariantly in
`[0, burst]`, `lastRefill` the time of the last refill. -/
structure LimiterState where
  rate : ℚ
  burst : ℚ
  tokens : ℚ
  lastRefill : ℚ
deriving DecidableEq, Repr

/-- Modelled from the spec: tokens accrued since the last refill — elapsed
time × rate, capped at `burst`. -/
def advanceTokens (lim : LimiterState) (t : ℚ) : ℚ :=
  min lim.burst (lim.tokens + (t - lim.lastRefill) * lim.rate)

/-- Modelled from the spec: `limiter.Allow()` at time `t` — atomically refill,
then consume one token when at least one is available, else refuse. -/
def allowAt (lim : LimiterState) (t : ℚ) : Bool × LimiterState :=
  if 1 ≤ advanceTokens lim t then
    (true, ⟨lim.rate, lim.burst, advanceTokens lim t - 1, t⟩)
  else
    (false, ⟨lim.rate, lim.burst, advanceTokens lim t, t⟩)

/-- `rate.Every(interval)`: the rate of one token per `interval`. -/
def rateEvery (interval : ℚ) : ℚ := 1 / interval

/-- Modelled from the spec: the limiter state captured by the stage
`RateLimiter(interval, limit, burst)` — sustained rate `rate.Every(interval)`
and a reservoir of capacity `burst`, full at construction (`burst` is the
maximum instantaneous token reservoir; `limit` only feeds the initial
`rate.NewLimiter` burst, which `SetBurst(burst)` replaces). -/
def rateLimiterInit (interval : ℚ) (limit burst : ℕ) : LimiterState :=
  ⟨rateEvery interval, (burst : ℚ), (burst : ℚ), 0⟩

/-- One request at time `t` through the handler the `RateLimiter` middleware
returns, threading the shared limiter state the closure captures: when
`limiter.Allow()` refuses, write the 429 rejection via
`http.Error(w, http.StatusText(429), 429)` and return without calling the
next handler; otherwise delegate to the next handler untouched. -/
def rateLimiterServe (lim : LimiterState) (t : ℚ) (h : Handler) (r : Request)
    (st : HState) : LimiterState × (HState × Option String) :=
  match allowAt lim t with
  | (true, lim2) => (lim2, h r st)
  | (false, lim2) =>
    (lim2, ({ st with rw := httpError st.rw (StatusText 429) 429 }, none))

/-- The request issued by the rate-limiter test. -/
def defaultRequest : Request := ⟨"GET", "/"⟩

/-- A fresh per-request state as handed over by the `net/http` server: an
untouched base writer, no log lines. -/
def freshState : HState := ⟨ResponseWriter.base none "", []⟩

/-- The test's terminal handler: it writes nothing. -/
def noopHandler : Handler := fun _ st => (st, none)

/-- Issue one request per time in the list through the rate-limiting stage
over the noop terminal handler, each on a fresh state, threading the shared
limiter; collect each response's status and the final limiter state. -/
def requestStatusesAux (lim : LimiterState) : List ℚ → List Int × LimiterState
  | [] => ([], lim)
  | t :: ts =>
    ((statusCode (rateLimiterServe lim t noopHandler defaultRequest freshState).2.1.rw) ::
        (requestStatusesAux (rateLimiterServe lim t noopHandler defaultRequest
          freshState).1 ts).1,
      (requestStatusesAux (rateLimiterServe lim t noopHandler defaultRequest
        freshState).1 ts).2)

/-- The statuses observed for one request per time in the list. -/
def requestStatuses (lim : LimiterState) (ts : List ℚ) : List Int :=
  (requestStatusesAux lim ts).1

lemma advanceTokens_same_time (rt b tk t : ℚ) (htk : tk ≤ b) :
    advanceTokens ⟨rt, b, tk, t⟩ t = tk := by
  unfold advanceTokens
  simp only []
  rw [sub_self, zero_mul, add_zero]
  exact min_eq_right htk

lemma allowAt_accept (rt b tk t : ℚ) (htk : tk ≤ b) (h1 : 1 ≤ tk) :
    allowAt ⟨rt, b, tk, t⟩ t = (true, ⟨rt, b, tk - 1, t⟩) := by
  unfold allowAt
  rw [advanceTokens_same_time rt b tk t htk]
  rw [if_pos h1]

lemma allowAt_refuse (rt b tk t : ℚ) (htk : tk ≤ b) (h1 : ¬ 1 ≤ tk) :
    allowAt ⟨rt, b, tk, t⟩ t = (false, ⟨rt, b, tk, t⟩) := by
  unfold allowAt
  rw [advanceTokens_same_time rt b tk t htk]
  rw [if_neg h1]

lemma requestStatusesAux_cons (lim : LimiterState) (t : ℚ) (ts : List ℚ) :
    requestStatusesAux lim (t :: ts) =
      ((statusCode (rateLimiterServe lim t noopHandler defaultRequest
          freshState).2.1.rw) ::
        (requestStatusesAux (rateLimiterServe lim t noopHandler defaultRequest
          freshState).1 ts).1,
        (requestStatusesAux (rateLimiterServe lim t noopHandler defaultRequest
          freshState).1 ts).2) := rfl

lemma requestStatusesAux_drain (n : ℕ) :
    ∀ (rt b : ℚ), (n : ℚ) ≤ b →
    requestStatusesAux ⟨rt, b, (n : ℚ), 0⟩ (List.replicate (n + 1) 0) =
      (List.replicate n 200 ++ [429], ⟨rt, b, 0, 0⟩) := by
  induction n with
  | zero =>
    intro rt b hb
    have h0 : ¬ (1 : ℚ) ≤ ((0 : ℕ) : ℚ) := by norm_num
    have hserve : rateLimiterServe ⟨rt, b, ((0 : ℕ) : ℚ), 0⟩ 0 noopHandler defaultRequest
        freshState =
        (⟨rt, b, ((0 : ℕ) : ℚ), 0⟩,
          ({ freshState with
              rw := httpError freshState.rw (StatusText 429) 429 }, none)) := by
      unfold rateLimiterServe
      rw [allowAt_refuse rt b _ 0 hb h0]
    rw [List.replicate_one, requestStatusesAux_cons, hserve]
    simp [requestStatusesAux, freshState, httpError, StatusText, WriteHeader,
      writeBody, statusCode]
  | succ n ih =>
    intro rt b hb
    have hcast : ((n + 1 : ℕ) : ℚ) = (n : ℚ) + 1 := by push_cast; ring
    have hb2 : (n : ℚ) ≤ b := by
      rw [hcast] at hb
      linarith
    have h1 : (1 : ℚ) ≤ ((n + 1 : ℕ) : ℚ) := by
      rw [hcast]
      have : (0 : ℚ) ≤ (n : ℚ) := Nat.cast_nonneg n
      linarith
    have htoks : ((n + 1 : ℕ) : ℚ) - 1 = ((n : ℕ) : ℚ) := by
      rw [hcast]
      ring
    have hserve : rateLimiterServe ⟨rt, b, ((n + 1 : ℕ) : ℚ), 0⟩ 0 noopHandler
        defaultRequest freshState =
        (⟨rt, b, ((n : ℕ) : ℚ), 0⟩, (freshState, none)) := by
      unfold rateLimiterServe
      rw [allowAt_accept rt b _ 0 hb h1, htoks]
      rfl
    rw [List.replicate_succ, requestStatusesAux_cons, hserve]
    dsimp only
    rw [ih rt b hb2]
    simp [freshState, statusCode, List.replicate_succ]

lemma requestStatusesAux_append (lim : LimiterState) (ts1 ts2 : List ℚ) :
    requestStatusesAux lim (ts1 ++ ts2) =
      ((requestStatusesAux lim ts1).1 ++
          (requestStatusesAux (requestStatusesAux lim ts1).2 ts2).1,
        (requestStatusesAux (requestStatusesAux lim ts1).2 ts2).2) := by
  induction ts1 generalizing lim with
  | nil => rfl
  | cons t ts ih =>
    rw [List.cons_append, requestStatusesAux_cons, requestStatusesAux_cons, ih]
    dsimp only
    simp

/-- C3: for the stage built by `RateLimiter(interval, limit, burst)` with a
positive interval and `burst = B ≥ 1`, issuing `B + 1` requests with no delay
(all at time 0) yields exactly `B` admitted requests (status 200) followed by
one rejection (429), and the next request one full refill interval later is
admitted again. -/
theorem C3_rate_limiter_admission :
    ∀ (interval : ℚ) (limit burst : ℕ), 0 < interval → 1 ≤ burst →
      requestStatuses (rateLimiterInit interval limit burst)
          (List.replicate (burst + 1) 0 ++ [interval]) =
        List.replicate burst 200 ++ [429, 200] := by
  intro interval limit burst hpos hburst
  have hb1 : (1 : ℚ) ≤ (burst : ℚ) := by exact_mod_cast hburst
  have hadv : advanceTokens ⟨rateEvery interval, (burst : ℚ), 0, 0⟩ interval = 1 := by
    show min (burst : ℚ) (0 + (interval - 0) * (1 / interval)) = 1
    rw [zero_add, sub_zero, mul_one_div, div_self (ne_of_gt hpos)]
    exact min_eq_right hb1
  have hallow : allowAt ⟨rateEvery interval, (burst : ℚ), 0, 0⟩ interval =
      (true, ⟨rateEvery interval, (burst : ℚ), 0, interval⟩) := by
    unfold allowAt
    rw [hadv]
    norm_num
  have hserveLast : rateLimiterServe ⟨rateEvery interval, (burst : ℚ), 0, 0⟩ interval
      noopHandler defaultRequest freshState =
      (⟨rateEvery interval, (burst : ℚ), 0, interval⟩, (freshState, none)) := by
    unfold rateLimiterServe
    rw [hallow]
    rfl
  have hdrain := requestStatusesAux_drain burst (rateEvery interval) (burst : ℚ) le_rfl
  unfold requestStatuses rateLimiterInit
  rw [requestStatusesAux_append, hdrain]
  dsimp only
  rw [requestStatusesAux_cons, hserveLast]
  dsimp only
  simp [requestStatusesAux, freshState, statusCode]

theorem C3_rate_limiter_admission_witness :
    requestStatuses (rateLimiterInit 1 2 2) (List.replicate (2 + 1) 0 ++ [1]) =
      List.replicate 2 200 ++ [429, 200] :=
  C3_rate_limiter_admission 1 2 2 (by norm_num) (by norm_num)

/-- C5: when the limiter refuses a token, the rate-limiting stage writes the
rejection `http.Error(w, "Too Many Requests", 429)` on the writer and returns
normally with the rest of the state untouched — the result does not depend on
the next handler at all, so no inner stage or terminal handler runs, and on a
fresh writer the response is status 429 with the plain-text
"Too Many Requests" body; when a token is available the stage's result is
exactly the next handler's. -/
theorem C5_rate_limiter_reject_short_circuits :
    ∀ (lim : LimiterState) (t : ℚ) (h : Handler) (r : Request) (st : HState),
      ((allowAt lim t).1 = false →
        rateLimiterServe lim t h r st =
          ((allowAt lim t).2,
            ({ st with rw := httpError st.rw "Too Many Requests" 429 }, none)) ∧
        (∀ h2 : Handler, rateLimiterServe lim t h r st = rateLimiterServe lim t h2 r st) ∧
        statusCode (rateLimiterServe lim t h r freshState).2.1.rw = 429 ∧
        bodyOf (rateLimiterServe lim t h r freshState).2.1.rw = "Too Many Requests\n") ∧
      ((allowAt lim t).1 = true →
        rateLimiterServe lim t h r st = ((allowAt lim t).2, h r st)) := by
  intro lim t h r st
  have hpair : allowAt lim t = ((allowAt lim t).1, (allowAt lim t).2) := rfl
  constructor
  · intro hfalse
    rw [hfalse] at hpair
    refine ⟨?_, ?_, ?_, ?_⟩
    · unfold rateLimiterServe
      rw [hpair]
      simp [StatusText]
    · intro h2
      unfold rateLimiterServe
      rw [hpair]
    · unfold rateLimiterServe
      rw [hpair]
      simp [freshState, httpError, StatusText, WriteHeader, writeBody, statusCode]
    · unfold rateLimiterServe
      rw [hpair]
      simp [freshState, httpError, StatusText, WriteHeader, writeBody, bodyOf]
  · intro htrue
    rw [htrue] at hpair
    unfold rateLimiterServe
    rw [hpair]

theorem C5_rate_limiter_reject_short_circuits_witness :
    (rateLimiterServe ⟨1, 1, 0, 0⟩ 0 theHandler defaultRequest freshState =
        ((allowAt ⟨1, 1, 0, 0⟩ 0).2,
          ({ freshState with
              rw := httpError freshState.rw "Too Many Requests" 429 }, none)) ∧
      (∀ h2 : Handler, rateLimiterServe ⟨1, 1, 0, 0⟩ 0 theHandler defaultRequest freshState =
        rateLimiterServe ⟨1, 1, 0, 0⟩ 0 h2 defaultRequest freshState) ∧
      statusCode (rateLimiterServe ⟨1, 1, 0, 0⟩ 0 theHandler defaultRequest
        freshState).2.1.rw = 429 ∧
      bodyOf (rateLimiterServe ⟨1, 1, 0, 0⟩ 0 theHandler defaultRequest
        freshState).2.1.rw = "Too Many Requests\n") ∧
    rateLimiterServe ⟨1, 1, 1, 0⟩ 0 theHandler defaultRequest freshState =
      ((allowAt ⟨1, 1, 1, 0⟩ 0).2, theHandler defaultRequest freshState) :=
  ⟨(C5_rate_limiter_reject_short_circuits ⟨1, 1, 0, 0⟩ 0 theHandler defaultRequest
      freshState).1
      (by rw [allowAt_refuse 1 1 0 0 (by norm_num) (by norm_num)]),
    (C5_rate_limiter_reject_short_circuits ⟨1, 1, 1, 0⟩ 0 theHandler defaultRequest
      freshState).2
      (by rw [allowAt_accept 1 1 1 0 (by norm_num) (by norm_num)])⟩

/-- The names under which one run of the `metricsRegisterOnce` body registers
the four collectors with the default Prometheus registry (via `promauto`). -/
def prometheusCollectorNames : List String :=
  ["in_flight_requests", "http_requests_total", "request_duration_seconds",
    "response_size_bytes"]

/-- The four collector pointers a call of `Prometheus()` leaves in its local
variables (and the returned closure captures). -/
structure Collectors where
  inFlightGauge : String
  counter : String
  duration : String
  responseSize : String
deriving DecidableEq, Repr

/-- Process-wide state for `Prometheus`: whether `metricsRegisterOnce` has
fired and which collector names the default registry holds. -/
structure PromProcState where
  onceDone : Bool
  registered : List String
deriving DecidableEq, Repr

/-- A fresh process: the `sync.Once` not yet fired, nothing registered. -/
def promInitialState : PromProcState := ⟨false, []⟩

/-- One call of the `Prometheus` middleware constructor. The four collector
locals start nil; `metricsRegisterOnce.Do` runs its body only when the once
has not fired yet, registering the collectors and assigning the locals. The
result is the new process state and the collector pointers the returned
closure captured: `none` models the locals left nil because the once body was
skipped on a repeated call. -/
def Prometheus (ps : PromProcState) : PromProcState × Option Collectors :=
  if ps.onceDone then (ps, none)
  else
    (⟨true, ps.registered ++ prometheusCollectorNames⟩,
      some ⟨"in_flight_requests", "http_requests_total", "request_duration_seconds",
        "response_size_bytes"⟩)

/-- Serving one request through the handler a `Prometheus()` call returned:
the closure calls the `promhttp.InstrumentHandler...` wrappers on, and
dereferences, the captured collectors, so nil collectors make the request
panic with a nil pointer dereference before the inner handler runs; with live
collectors it wraps the writer and delegates (the metric updates are effects
on the external collectors). -/
def prometheusServe (cols : Option Collectors) (h : Handler) : Handler :=
  fun r st =>
    match cols with
    | none => (st, some "runtime error: invalid memory address or nil pointer dereference")
    | some _ => h r { st with rw := NewResponseWriter st.rw }

/-- C8: on the second constructor call in one process the collectors are
registered exactly once (no duplicate registration), but the middleware value
returned by that second call has captured nil collectors and panics with a
nil pointer dereference on every request it serves — while the first call's
middleware serves normally. The once-only registration half of the claim
holds; the every-returned-middleware-usable half does not. -/
theorem C8_prometheus_second_call_unusable :
    (Prometheus promInitialState).2.isSome = true ∧
    (Prometheus (Prometheus promInitialState).1).1.registered = prometheusCollectorNames ∧
    (Prometheus (Prometheus promInitialState).1).2 = none ∧
    (∀ (h : Handler) (r : Request) (st : HState),
      (prometheusServe (Prometheus (Prometheus promInitialState).1).2 h r st).2 =
        some "runtime error: invalid memory address or nil pointer dereference") ∧
    (prometheusServe (Prometheus promInitialState).2 noopHandler defaultRequest
        freshState).2 = none := by
  refine ⟨rfl, rfl, rfl, ?_, rfl⟩
  intro h r st
  rfl

end HttpHelpers
